import Mathlib

/-!
# Verification of the Naphome WAV generator

A shallow embedding of `naphome_phase09_test/main/generate_wav.py` and proofs
about it.  The script issues one HTTP request to a text-to-speech service and,
on success, wraps the decoded PCM bytes in a 44-byte-header WAV container,
writing the file field by field inside a `with open(...)` block.

Modelling conventions:

* Bytes are `Nat` values; byte sequences are `List Nat`.
* `struct.pack('<I', n)` and `struct.pack('<H', n)` raise `struct.error` for
  out-of-range arguments rather than wrapping; they are modelled as `Option`
  producers (`packU32`, `packU16`) that return `none` exactly when Python
  would raise.
* The HTTP layer is an input to the model: a `TransportOutcome` is either a
  transport failure (the `requests.post` call raises) or a response carrying
  a status code and, when the parsed JSON body has an `audioContent` field,
  the byte sequence that `base64.b64decode` yields for it.  The claims under
  verification never constrain base64 decoding itself, only the presence or
  absence of the field, so the field is represented by its decoded bytes.
* The `with open(output_file, 'wb')` block is modelled as a trace of file
  events: one `opened`, a `wrote` event per `f.write` that executes, and one
  `closed` appended unconditionally, reflecting the context manager's
  guaranteed closure.  A write whose `struct.pack` argument is out of range
  stops the trace early (the exception propagates), but `closed` still
  follows, and everything written before the failure is on disk.
-/

namespace Naphome

/-! ## Little-endian encoders and `struct.pack` -/

/-- The four bytes of `n` in unsigned 32-bit little-endian order
(the byte layout `struct.pack('<I', n)` produces when `n` is in range). -/
def u32le (n : Nat) : List Nat :=
  [n % 256, n / 256 % 256, n / 65536 % 256, n / 16777216 % 256]

/-- The two bytes of `n` in unsigned 16-bit little-endian order
(the byte layout `struct.pack('<H', n)` produces when `n` is in range). -/
def u16le (n : Nat) : List Nat :=
  [n % 256, n / 256 % 256]

/-- `struct.pack('<I', n)`: four little-endian bytes, or `none` (a raised
`struct.error`) when `n` does not fit an unsigned 32-bit integer. -/
def packU32 (n : Nat) : Option (List Nat) :=
  if n < 2 ^ 32 then some (u32le n) else none

/-- `struct.pack('<H', n)`: two little-endian bytes, or `none` (a raised
`struct.error`) when `n` does not fit an unsigned 16-bit integer. -/
def packU16 (n : Nat) : Option (List Nat) :=
  if n < 2 ^ 16 then some (u16le n) else none

/-- Read the 4 bytes of `w` starting at byte offset `off` as an unsigned
32-bit little-endian integer. -/
def readU32 (w : List Nat) (off : Nat) : Nat :=
  match (w.drop off).take 4 with
  | [b0, b1, b2, b3] => b0 + 256 * b1 + 65536 * b2 + 16777216 * b3
  | _ => 0

/-- Read the 2 bytes of `w` starting at byte offset `off` as an unsigned
16-bit little-endian integer. -/
def readU16 (w : List Nat) (off : Nat) : Nat :=
  match (w.drop off).take 2 with
  | [b0, b1] => b0 + 256 * b1
  | _ => 0

/-! ## The WAV encoder (lines 64–90 of `generate_wav.py`) -/

/-- ASCII bytes of the tag `RIFF`. -/
def riffTag : List Nat := [82, 73, 70, 70]

/-- ASCII bytes of the tag `WAVE`. -/
def waveTag : List Nat := [87, 65, 86, 69]

/-- ASCII bytes of the tag `fmt ` (with trailing space). -/
def fmtTag : List Nat := [102, 109, 116, 32]

/-- ASCII bytes of the tag `data`. -/
def dataTag : List Nat := [100, 97, 116, 97]

/-- `num_channels = 1  # Mono` -/
def num_channels : Nat := 1

/-- `bits_per_sample = 16` -/
def bits_per_sample : Nat := 16

/-- `byte_rate = sample_rate * num_channels * (bits_per_sample // 8)` -/
def byte_rate (sample_rate : Nat) : Nat :=
  sample_rate * num_channels * (bits_per_sample / 8)

/-- `block_align = num_channels * (bits_per_sample // 8)` -/
def block_align : Nat :=
  num_channels * (bits_per_sample / 8)

/-- `data_size = len(audio_data)` -/
def data_size (audio_data : List Nat) : Nat := audio_data.length

/-- `file_size = 36 + data_size  # 36 = header size` -/
def file_size (audio_data : List Nat) : Nat := 36 + data_size audio_data

/-- The fourteen `f.write` arguments of the `with open` block, in program
order; an entry is `none` when the corresponding `struct.pack` call raises. -/
def wavFieldWrites (sample_rate : Nat) (audio_data : List Nat) :
    List (Option (List Nat)) :=
  [some riffTag,
   packU32 (file_size audio_data),
   some waveTag,
   some fmtTag,
   packU32 16,
   packU16 1,
   packU16 num_channels,
   packU32 sample_rate,
   packU32 (byte_rate sample_rate),
   packU16 block_align,
   packU16 bits_per_sample,
   some dataTag,
   packU32 (data_size audio_data),
   some audio_data]

/-- Execute a sequence of writes: the bytes that reach the file (everything
before the first failing `struct.pack`) together with whether every write
executed. -/
def runWrites : List (Option (List Nat)) → List Nat × Bool
  | [] => ([], true)
  | none :: _ => ([], false)
  | some b :: rest =>
      let r := runWrites rest
      (b ++ r.1, r.2)

/-- The complete WAV byte sequence the encoder produces for the given sample
rate and PCM buffer, or `none` when a `struct.pack` call raises before the
file is fully written. -/
def wavBytes (sample_rate : Nat) (audio_data : List Nat) : Option (List Nat) :=
  let r := runWrites (wavFieldWrites sample_rate audio_data)
  if r.2 then some r.1 else none

/-! ## The full script run (request handling and `__main__`) -/

/-- A parsed JSON response from the synthesis endpoint: the HTTP status code
and, when the body has an `audioContent` field, the decoded payload bytes. -/
structure TtsResponse where
  status_code : Nat
  audioContent : Option (List Nat)

/-- Outcome of the `requests.post` call: either the call raises, or it
completes with a response. -/
inductive TransportOutcome where
  | transportFailed : TransportOutcome
  | response : TtsResponse → TransportOutcome

/-- How `generate_wav` finishes: a returned boolean, or an uncaught
exception propagating out of it. -/
inductive Signal where
  | returned : Bool → Signal
  | raised : Signal
deriving DecidableEq

/-- Observable events on the output file inside the `with open` block. -/
inductive FileEvent where
  | opened : FileEvent
  | wrote : List Nat → FileEvent
  | closed : FileEvent
deriving DecidableEq

/-- The `wrote` events that execute: one per field until the first failing
`struct.pack`. -/
def writeEvents : List (Option (List Nat)) → List FileEvent
  | [] => []
  | none :: _ => []
  | some b :: rest => FileEvent.wrote b :: writeEvents rest

/-- The bytes on disk after a trace of file events. -/
def traceContent : List FileEvent → List Nat
  | [] => []
  | FileEvent.wrote b :: rest => b ++ traceContent rest
  | _ :: rest => traceContent rest

/-- Result of one run of `generate_wav`: how it finished, whether the base64
payload decode was reached, and the output file's event trace when the file
was created. -/
structure RunResult where
  signal : Signal
  payloadDecoded : Bool
  fileTrace : Option (List FileEvent)

/-- One run of `generate_wav(text, output_file, sample_rate)` as a function of
the transport outcome.  Mirrors the source: a non-200 status or a missing
`audioContent` field returns `False` before the output file is opened; on the
happy path the file is opened, the fourteen fields are written in order, and
the context manager closes the handle whether or not a `struct.pack` raises. -/
def generate_wav (outcome : TransportOutcome) (sample_rate : Nat) : RunResult :=
  match outcome with
  | TransportOutcome.transportFailed =>
      { signal := Signal.raised, payloadDecoded := false, fileTrace := none }
  | TransportOutcome.response resp =>
      if resp.status_code ≠ 200 then
        { signal := Signal.returned false, payloadDecoded := false,
          fileTrace := none }
      else
        match resp.audioContent with
        | none =>
            { signal := Signal.returned false, payloadDecoded := false,
              fileTrace := none }
        | some audio_data =>
            let fields := wavFieldWrites sample_rate audio_data
            { signal :=
                if (runWrites fields).2 then Signal.returned true
                else Signal.raised,
              payloadDecoded := true,
              fileTrace :=
                some (FileEvent.opened :: (writeEvents fields ++ [FileEvent.closed])) }

/-- The process exit status: `sys.exit(0 if success else 1)`, and exit code 1
when an uncaught exception terminates the interpreter. -/
def mainExitCode (outcome : TransportOutcome) (sample_rate : Nat) : Nat :=
  match (generate_wav outcome sample_rate).signal with
  | Signal.returned true => 0
  | Signal.returned false => 1
  | Signal.raised => 1

/-! ## Specification-side definitions -/

/-- The 14-field byte layout of §4.2 of the specification, stated from the
spec's words for `channelCount = 1`, `bitsPerSample = 16`: `RIFF`, uint32-LE
total-size-minus-8, `WAVE`, `fmt `, uint32-LE 16, uint16-LE 1, uint16-LE
channel count, uint32-LE sample rate, uint32-LE byte rate, uint16-LE block
alignment, uint16-LE bits per sample, `data`, uint32-LE data size, then the
PCM buffer verbatim. -/
def specWavLayout (sample_rate : Nat) (pcm : List Nat) : List Nat :=
  riffTag ++ (u32le (36 + pcm.length) ++ (waveTag ++ (fmtTag ++
    (u32le 16 ++ (u16le 1 ++ (u16le 1 ++ (u32le sample_rate ++
    (u32le (sample_rate * 1 * (16 / 8)) ++ (u16le (1 * (16 / 8)) ++
    (u16le 16 ++ (dataTag ++ (u32le pcm.length ++ pcm))))))))))))

/-- Modelled from the spec: no WAV parser exists in the repository source;
this header parser follows the §4.2 layout.  It accepts a byte sequence of at
least 44 bytes whose `RIFF`, `WAVE`, `fmt ` and `data` tags, fmt-chunk size
(16) and audio format code (1) are in place, and returns the tuple
(sample rate, channel count, bits per sample, data-chunk size) read from the
header fields. -/
def parseWavHeader (w : List Nat) : Option (Nat × Nat × Nat × Nat) :=
  if 44 ≤ w.length ∧ w.take 4 = riffTag ∧ ((w.drop 8).take 4 = waveTag ∧
      (w.drop 12).take 4 = fmtTag ∧ (w.drop 36).take 4 = dataTag ∧
      readU32 w 16 = 16 ∧ readU16 w 20 = 1) then
    some (readU32 w 24, readU16 w 22, readU16 w 34, readU32 w 40)
  else
    none

/-! ## Helper lemmas -/

/-- The byte rate for the script's fixed mono/16-bit parameters is twice the
sample rate. -/
theorem byte_rate_eq (sr : Nat) : byte_rate sr = sr * 2 := by
  simp [byte_rate, num_channels, bits_per_sample]

/-- When the byte rate and the RIFF size both fit an unsigned 32-bit integer,
every `struct.pack` succeeds and the fourteen writes produce exactly the
spec's layout. -/
theorem runWrites_wavFields_success (sr : Nat) (d : List Nat)
    (hb : byte_rate sr < 2 ^ 32) (hf : 36 + d.length < 2 ^ 32) :
    runWrites (wavFieldWrites sr d) = (specWavLayout sr d, true) := by
  rw [byte_rate_eq] at hb
  have hb2 : sr * 2 < 4294967296 := by omega
  have hf2 : 36 + d.length < 4294967296 := by omega
  have hs : sr < 4294967296 := by omega
  have hd : d.length < 4294967296 := by omega
  simp [wavFieldWrites, runWrites, packU32, packU16, file_size, data_size,
    byte_rate, num_channels, bits_per_sample, block_align, hf2, hs, hd, hb2,
    specWavLayout, u32le, u16le, riffTag, waveTag, fmtTag, dataTag]

/-- In-range inputs make the encoder produce the spec's layout. -/
theorem wavBytes_eq_some (sr : Nat) (d : List Nat)
    (hb : byte_rate sr < 2 ^ 32) (hf : 36 + d.length < 2 ^ 32) :
    wavBytes sr d = some (specWavLayout sr d) := by
  rw [wavBytes, runWrites_wavFields_success sr d hb hf]
  simp

/-- A buffer whose RIFF size overflows makes the second `struct.pack` raise:
no complete byte sequence is produced. -/
theorem wavBytes_none_of_large_file (sr : Nat) (d : List Nat)
    (hf : ¬ 36 + d.length < 2 ^ 32) : wavBytes sr d = none := by
  have hf2 : ¬ 36 + d.length < 4294967296 := by omega
  simp [wavBytes, wavFieldWrites, runWrites, packU32, file_size, data_size, hf2]

/-- A sample rate whose byte rate overflows makes a `struct.pack` raise:
no complete byte sequence is produced. -/
theorem wavBytes_none_of_large_rate (sr : Nat) (d : List Nat)
    (hf : 36 + d.length < 2 ^ 32) (hb : ¬ byte_rate sr < 2 ^ 32) :
    wavBytes sr d = none := by
  rw [byte_rate_eq] at hb
  have hf2 : 36 + d.length < 4294967296 := by omega
  by_cases hs : sr < 4294967296
  · have hb2 : ¬ sr * 2 < 4294967296 := by omega
    simp [wavBytes, wavFieldWrites, runWrites, packU32, packU16, file_size,
      data_size, num_channels, bits_per_sample, block_align, byte_rate,
      hf2, hs, hb2]
  · simp [wavBytes, wavFieldWrites, runWrites, packU32, packU16, file_size,
      data_size, num_channels, bits_per_sample, block_align, byte_rate,
      hf2, hs]

/-- The encoder produces a complete byte sequence exactly when the byte rate
and the RIFF size are in unsigned 32-bit range, and that sequence is the
spec's layout. -/
theorem wavBytes_eq_some_iff (sr : Nat) (d : List Nat) (w : List Nat) :
    wavBytes sr d = some w ↔
      byte_rate sr < 2 ^ 32 ∧ 36 + d.length < 2 ^ 32 ∧
        w = specWavLayout sr d := by
  constructor
  · intro h
    by_cases hf : 36 + d.length < 2 ^ 32
    · by_cases hb : byte_rate sr < 2 ^ 32
      · refine ⟨hb, hf, ?_⟩
        rw [wavBytes_eq_some sr d hb hf] at h
        exact (Option.some.inj h).symm
      · rw [wavBytes_none_of_large_rate sr d hf hb] at h
        exact absurd h (by simp)
    · rw [wavBytes_none_of_large_file sr d hf] at h
      exact absurd h (by simp)
  · rintro ⟨hb, hf, rfl⟩
    exact wavBytes_eq_some sr d hb hf

/-- The spec layout is 44 header bytes followed by the PCM buffer. -/
theorem specWavLayout_length (sr : Nat) (d : List Nat) :
    (specWavLayout sr d).length = d.length + 44 := by
  simp [specWavLayout, u32le, u16le, riffTag, waveTag, fmtTag, dataTag]

/-- Bytes 4–7 of the layout hold the little-endian bytes of `36 + L`. -/
theorem readU32_specLayout_riffSize (sr : Nat) (d : List Nat) :
    readU32 (specWavLayout sr d) 4 =
      (36 + d.length) % 256 + 256 * ((36 + d.length) / 256 % 256) +
        65536 * ((36 + d.length) / 65536 % 256) +
        16777216 * ((36 + d.length) / 16777216 % 256) := rfl

/-- Bytes 24–27 of the layout hold the little-endian bytes of the sample
rate. -/
theorem readU32_specLayout_sampleRate (sr : Nat) (d : List Nat) :
    readU32 (specWavLayout sr d) 24 =
      sr % 256 + 256 * (sr / 256 % 256) + 65536 * (sr / 65536 % 256) +
        16777216 * (sr / 16777216 % 256) := rfl

/-- Bytes 28–31 of the layout hold the little-endian bytes of the byte
rate. -/
theorem readU32_specLayout_byteRate (sr : Nat) (d : List Nat) :
    readU32 (specWavLayout sr d) 28 =
      sr * 1 * (16 / 8) % 256 + 256 * (sr * 1 * (16 / 8) / 256 % 256) +
        65536 * (sr * 1 * (16 / 8) / 65536 % 256) +
        16777216 * (sr * 1 * (16 / 8) / 16777216 % 256) := rfl

/-- Bytes 40–43 of the layout hold the little-endian bytes of the PCM
length. -/
theorem readU32_specLayout_dataSize (sr : Nat) (d : List Nat) :
    readU32 (specWavLayout sr d) 40 =
      d.length % 256 + 256 * (d.length / 256 % 256) +
        65536 * (d.length / 65536 % 256) +
        16777216 * (d.length / 16777216 % 256) := rfl

/-! ## Claims about the WAV encoder -/

/-- C1 (counterexample): as stated — for every positive sample rate and every
PCM buffer the encoder produces the 14-field layout — the claim is false: at
`sample_rate = 2 ^ 31` the byte rate is `2 ^ 32`, `struct.pack('<I', ...)`
raises, and no byte sequence is produced at all. -/
theorem c1_counterexample :
    ¬ (∀ sr : Nat, 0 < sr → ∀ pcm : List Nat,
        wavBytes sr pcm = some (specWavLayout sr pcm)) := by
  intro h
  have h1 := h (2 ^ 31) (by norm_num) []
  have h2 : wavBytes (2 ^ 31) [] = none := by decide
  rw [h2] at h1
  exact Option.noConfusion h1

/-- C1 (amended): for every positive sample rate whose byte rate fits an
unsigned 32-bit integer and every PCM buffer whose RIFF size fits an unsigned
32-bit integer, the encoder produces exactly the 14-field byte sequence of
the canonical 44-byte-header PCM WAV format: `RIFF`, uint32-LE
total-size-minus-8, `WAVE`, `fmt `, uint32-LE 16, uint16-LE 1, uint16-LE
channel count, uint32-LE sample rate, uint32-LE byte rate, uint16-LE block
alignment, uint16-LE bits per sample, `data`, uint32-LE data size, then the
PCM buffer verbatim. -/
theorem c1_wav_layout (sr : Nat) (pcm : List Nat) (_hpos : 0 < sr)
    (hb : byte_rate sr < 2 ^ 32) (hf : 36 + pcm.length < 2 ^ 32) :
    wavBytes sr pcm = some (specWavLayout sr pcm) :=
  wavBytes_eq_some sr pcm hb hf

/-- C1 (witness): the amended claim at `sample_rate = 44100` and a concrete
4-byte buffer. -/
theorem c1_wav_layout_witness :
    wavBytes 44100 [1, 2, 3, 4] = some (specWavLayout 44100 [1, 2, 3, 4]) :=
  c1_wav_layout 44100 [1, 2, 3, 4] (by norm_num) (by decide) (by decide)

/-- C2: whenever the encoder produces a byte sequence for a PCM buffer of
length `L`, that sequence has total length `L + 44` and its bytes at offsets
4 through 7, read as an unsigned 32-bit little-endian integer, equal
`L + 36`. -/
theorem c2_length_and_riff_size (sr : Nat) (d : List Nat) (w : List Nat)
    (h : wavBytes sr d = some w) :
    w.length = d.length + 44 ∧ readU32 w 4 = d.length + 36 := by
  rw [wavBytes_eq_some_iff] at h
  obtain ⟨hb, hf, rfl⟩ := h
  refine ⟨specWavLayout_length sr d, ?_⟩
  rw [readU32_specLayout_riffSize]
  omega

/-- C2 (witness): the claim at `sample_rate = 44100` and a concrete 2-byte
buffer. -/
theorem c2_length_and_riff_size_witness :
    (specWavLayout 44100 [1, 2]).length = ([1, 2] : List Nat).length + 44 ∧
      readU32 (specWavLayout 44100 [1, 2]) 4 = ([1, 2] : List Nat).length + 36 :=
  c2_length_and_riff_size 44100 [1, 2] (specWavLayout 44100 [1, 2]) (by decide)

/-- C4: every byte sequence the encoder produces carries a byte-rate field
equal to `sampleRateHz * channelCount * (bitsPerSample / 8)` and a
block-alignment field equal to `channelCount * (bitsPerSample / 8)`. -/
theorem c4_byte_rate_block_align (sr : Nat) (d : List Nat) (w : List Nat)
    (h : wavBytes sr d = some w) :
    readU32 w 28 = sr * num_channels * (bits_per_sample / 8) ∧
      readU16 w 32 = num_channels * (bits_per_sample / 8) := by
  rw [wavBytes_eq_some_iff] at h
  obtain ⟨hb, hf, rfl⟩ := h
  rw [byte_rate_eq] at hb
  constructor
  · rw [readU32_specLayout_byteRate]
    simp only [num_channels, bits_per_sample]
    omega
  · rfl

/-- C4 (witness): the claim at `sample_rate = 44100` and a concrete 2-byte
buffer. -/
theorem c4_byte_rate_block_align_witness :
    readU32 (specWavLayout 44100 [1, 2]) 28 =
        44100 * num_channels * (bits_per_sample / 8) ∧
      readU16 (specWavLayout 44100 [1, 2]) 32 =
        num_channels * (bits_per_sample / 8) :=
  c4_byte_rate_block_align 44100 [1, 2] (specWavLayout 44100 [1, 2]) (by decide)

/-- C9 (counterexample): as stated — for every valid (positive-rate)
parameter set the encoder turns an empty PCM buffer into a 44-byte sequence —
the claim is false: at `sample_rate = 2 ^ 31` the byte-rate `struct.pack`
raises and nothing is produced. -/
theorem c9_counterexample :
    ¬ (∀ sr : Nat, 0 < sr →
        ∃ w, wavBytes sr [] = some w ∧ w.length = 44 ∧ readU32 w 40 = 0) := by
  intro h
  obtain ⟨w, hw, -, -⟩ := h (2 ^ 31) (by norm_num)
  have h2 : wavBytes (2 ^ 31) ([] : List Nat) = none := by decide
  rw [h2] at hw
  exact Option.noConfusion hw

/-- C9 (amended): for every positive sample rate whose byte rate fits an
unsigned 32-bit integer, the encoder turns the empty PCM buffer into a byte
sequence of exactly 44 bytes whose data-chunk size field reads 0. -/
theorem c9_empty_buffer (sr : Nat) (_hpos : 0 < sr)
    (hb : byte_rate sr < 2 ^ 32) :
    ∃ w, wavBytes sr [] = some w ∧ w.length = 44 ∧ readU32 w 40 = 0 := by
  refine ⟨specWavLayout sr [], wavBytes_eq_some sr [] hb (by norm_num), ?_, ?_⟩
  · rw [specWavLayout_length]
    rfl
  · rw [readU32_specLayout_dataSize]
    rfl

/-- C9 (witness): the amended claim at `sample_rate = 44100`. -/
theorem c9_empty_buffer_witness :
    ∃ w, wavBytes 44100 [] = some w ∧ w.length = 44 ∧ readU32 w 40 = 0 :=
  c9_empty_buffer 44100 (by norm_num) (by decide)

/-- C10: the encoder imposes no alignment precondition on the PCM buffer:
for every byte buffer whose RIFF size fits an unsigned 32-bit integer — in
particular buffers whose length is not a multiple of
`channelCount * (bitsPerSample / 8)` — encoding succeeds and produces
`L + 44` bytes.  No divisibility-by-block-align hypothesis is needed. -/
theorem c10_no_alignment_precondition (sr : Nat) (d : List Nat)
    (hb : byte_rate sr < 2 ^ 32) (hf : 36 + d.length < 2 ^ 32) :
    ∃ w, wavBytes sr d = some w ∧ w.length = d.length + 44 :=
  ⟨specWavLayout sr d, wavBytes_eq_some sr d hb hf, specWavLayout_length sr d⟩

/-- C10 (witness): encoding succeeds at `sample_rate = 44100` on a 3-byte
buffer, whose length is not a multiple of the block alignment (2). -/
theorem c10_no_alignment_precondition_witness :
    ¬ block_align ∣ ([7, 8, 9] : List Nat).length ∧
      ∃ w, wavBytes 44100 [7, 8, 9] = some w ∧
        w.length = ([7, 8, 9] : List Nat).length + 44 :=
  ⟨by decide, c10_no_alignment_precondition 44100 [7, 8, 9] (by decide) (by decide)⟩

/-- C3: whenever the encoder produces a byte sequence, parsing its header
recovers exactly the original sample rate, channel count and bits per sample,
and a data-chunk size equal to the original PCM buffer length. -/
theorem c3_header_roundtrip (sr : Nat) (d : List Nat) (w : List Nat)
    (h : wavBytes sr d = some w) :
    parseWavHeader w = some (sr, num_channels, bits_per_sample, d.length) := by
  rw [wavBytes_eq_some_iff] at h
  obtain ⟨hb, hf, rfl⟩ := h
  have hs : sr < 2 ^ 32 := by rw [byte_rate_eq] at hb; omega
  have h1 : 44 ≤ (specWavLayout sr d).length := by
    rw [specWavLayout_length]
    omega
  have h2 : (specWavLayout sr d).take 4 = riffTag := rfl
  have h3 : ((specWavLayout sr d).drop 8).take 4 = waveTag := rfl
  have h4 : ((specWavLayout sr d).drop 12).take 4 = fmtTag := rfl
  have h5 : ((specWavLayout sr d).drop 36).take 4 = dataTag := rfl
  have h6 : readU32 (specWavLayout sr d) 16 = 16 := rfl
  have h7 : readU16 (specWavLayout sr d) 20 = 1 := rfl
  have h24 : readU32 (specWavLayout sr d) 24 = sr := by
    rw [readU32_specLayout_sampleRate]
    omega
  have h40 : readU32 (specWavLayout sr d) 40 = d.length := by
    rw [readU32_specLayout_dataSize]
    omega
  have h22 : readU16 (specWavLayout sr d) 22 = num_channels := rfl
  have h34 : readU16 (specWavLayout sr d) 34 = bits_per_sample := rfl
  rw [parseWavHeader, if_pos ⟨h1, h2, h3, h4, h5, h6, h7⟩, h24, h40, h22, h34]

/-- C3 (witness): the round trip at `sample_rate = 44100` and a concrete
2-byte buffer. -/
theorem c3_header_roundtrip_witness :
    parseWavHeader (specWavLayout 44100 [1, 2]) =
      some (44100, num_channels, bits_per_sample, ([1, 2] : List Nat).length) :=
  c3_header_roundtrip 44100 [1, 2] (specWavLayout 44100 [1, 2]) (by decide)

/-! ## Claims about request handling and the script's exit behaviour -/

/-- C5: a status-200 response whose body lacks the `audioContent` field makes
`generate_wav` return `False`, the process exit with status 1, and no output
file be created. -/
theorem c5_missing_audio_content (resp : TtsResponse) (sr : Nat)
    (h200 : resp.status_code = 200) (hac : resp.audioContent = none) :
    (generate_wav (TransportOutcome.response resp) sr).signal =
        Signal.returned false ∧
      mainExitCode (TransportOutcome.response resp) sr = 1 ∧
      (generate_wav (TransportOutcome.response resp) sr).fileTrace = none := by
  obtain ⟨code, ac⟩ := resp
  simp only at h200 hac
  subst h200
  subst hac
  exact ⟨rfl, rfl, rfl⟩

/-- C5 (witness): the concrete failing response `{status 200, no
audioContent}` at `sample_rate = 44100`. -/
theorem c5_missing_audio_content_witness :
    (generate_wav (TransportOutcome.response ⟨200, none⟩) 44100).signal =
        Signal.returned false ∧
      mainExitCode (TransportOutcome.response ⟨200, none⟩) 44100 = 1 ∧
      (generate_wav (TransportOutcome.response ⟨200, none⟩) 44100).fileTrace =
        none :=
  c5_missing_audio_content ⟨200, none⟩ 44100 rfl rfl

/-- C6: a response with a non-200 status code makes the process exit with
status 1, without the payload decode ever being reached and without an output
file being created. -/
theorem c6_non_200_response (resp : TtsResponse) (sr : Nat)
    (h : resp.status_code ≠ 200) :
    mainExitCode (TransportOutcome.response resp) sr = 1 ∧
      (generate_wav (TransportOutcome.response resp) sr).payloadDecoded =
        false ∧
      (generate_wav (TransportOutcome.response resp) sr).fileTrace = none := by
  obtain ⟨code, ac⟩ := resp
  simp only at h
  simp [generate_wav, mainExitCode, h]

/-- C6 (witness): a concrete 403 response that does carry an `audioContent`
field, showing the payload is still never decoded. -/
theorem c6_non_200_response_witness :
    mainExitCode (TransportOutcome.response ⟨403, some [1]⟩) 44100 = 1 ∧
      (generate_wav (TransportOutcome.response ⟨403, some [1]⟩)
            44100).payloadDecoded = false ∧
      (generate_wav (TransportOutcome.response ⟨403, some [1]⟩)
          44100).fileTrace = none :=
  c6_non_200_response ⟨403, some [1]⟩ 44100 (by decide)

/-- C7 (counterexample): as stated the claim is false: at
`sample_rate = 2 ^ 31` with an empty payload, the byte-rate `struct.pack`
raises mid-write and a partially written 28-byte output file remains on disk
— it is neither truncated nor removed, and the byte sequence was not
assembled before writing. -/
theorem c7_counterexample :
    (generate_wav (TransportOutcome.response ⟨200, some []⟩) (2 ^ 31)).signal =
        Signal.raised ∧
      Option.map traceContent
          (generate_wav (TransportOutcome.response ⟨200, some []⟩)
              (2 ^ 31)).fileTrace =
        some [82, 73, 70, 70, 36, 0, 0, 0, 87, 65, 86, 69, 102, 109, 116, 32,
          16, 0, 0, 0, 1, 0, 1, 0, 0, 0, 0, 128] := by
  exact ⟨by decide, by decide⟩

/-- C7 (amended): on every run that opens the output file, the file handle is
acquired first and released on every exit path of the scoped write (the trace
starts with `opened` and ends with `closed`); however, when a `struct.pack`
raises mid-write, a nonempty partially written file of fewer than 44 bytes
remains on disk. -/
theorem c7_scoped_write (sr : Nat) (audio : List Nat) (t : List FileEvent)
    (h : (generate_wav (TransportOutcome.response ⟨200, some audio⟩)
        sr).fileTrace = some t) :
    t.head? = some FileEvent.opened ∧
      t.getLast? = some FileEvent.closed ∧
      ((generate_wav (TransportOutcome.response ⟨200, some audio⟩)
            sr).signal = Signal.raised →
        traceContent t ≠ [] ∧ (traceContent t).length < 44) := by
  have ht : t = FileEvent.opened ::
      (writeEvents (wavFieldWrites sr audio) ++ [FileEvent.closed]) := by
    have h2 := h.symm
    simp only [generate_wav] at h2
    exact Option.some.inj h2
  subst ht
  refine ⟨rfl, ?_, ?_⟩
  · rw [← List.cons_append, List.getLast?_concat]
  · intro hraise
    by_cases hflag : (runWrites (wavFieldWrites sr audio)).2 = true
    · exact absurd hraise (by simp [generate_wav, hflag])
    · by_cases hf : 36 + audio.length < 2 ^ 32
      · by_cases hb : byte_rate sr < 2 ^ 32
        · rw [runWrites_wavFields_success sr audio hb hf] at hflag
          exact absurd rfl hflag
        · rw [byte_rate_eq] at hb
          by_cases hs : sr < 4294967296
          · have hb2 : ¬ sr * 2 < 4294967296 := by omega
            have hf2 : 36 + audio.length < 4294967296 := by omega
            refine ⟨?_, ?_⟩ <;>
              simp [wavFieldWrites, writeEvents, traceContent, packU32,
                packU16, file_size, data_size, byte_rate, num_channels,
                bits_per_sample, block_align, u32le, u16le, riffTag, waveTag,
                fmtTag, dataTag, hf2, hs, hb2]
          · have hf2 : 36 + audio.length < 4294967296 := by omega
            refine ⟨?_, ?_⟩ <;>
              simp [wavFieldWrites, writeEvents, traceContent, packU32,
                packU16, file_size, data_size, byte_rate, num_channels,
                bits_per_sample, block_align, u32le, u16le, riffTag, waveTag,
                fmtTag, dataTag, hf2, hs]
      · have hf2 : ¬ 36 + audio.length < 4294967296 := by omega
        refine ⟨?_, ?_⟩ <;>
          simp [wavFieldWrites, writeEvents, traceContent, packU32, packU16,
            file_size, data_size, u32le, u16le, riffTag, waveTag, fmtTag,
            dataTag, hf2]

/-- C7 (witness): the amended claim at `sample_rate = 2 ^ 31` with an empty
payload, where the byte-rate pack raises after 28 bytes were written. -/
theorem c7_scoped_write_witness :
    (FileEvent.opened ::
          (writeEvents (wavFieldWrites (2 ^ 31) []) ++
            [FileEvent.closed])).head? = some FileEvent.opened ∧
      (FileEvent.opened ::
            (writeEvents (wavFieldWrites (2 ^ 31) []) ++
              [FileEvent.closed])).getLast? = some FileEvent.closed ∧
      ((generate_wav (TransportOutcome.response ⟨200, some []⟩)
            (2 ^ 31)).signal = Signal.raised →
        traceContent (FileEvent.opened ::
            (writeEvents (wavFieldWrites (2 ^ 31) []) ++
              [FileEvent.closed])) ≠ [] ∧
          (traceContent (FileEvent.opened ::
              (writeEvents (wavFieldWrites (2 ^ 31) []) ++
                [FileEvent.closed]))).length < 44) :=
  c7_scoped_write (2 ^ 31) []
    (FileEvent.opened ::
      (writeEvents (wavFieldWrites (2 ^ 31) []) ++ [FileEvent.closed]))
    (by decide)

/-- C8: in every failure case of the speech request — the transport call does
not complete, the status code is not 200, or the `audioContent` field is
absent — the caller does not receive `True`, the process exits with status 1,
and no output file is created. -/
theorem c8_failure_cases (o : TransportOutcome) (sr : Nat)
    (h : o = TransportOutcome.transportFailed ∨
      ∃ r, o = TransportOutcome.response r ∧
        (r.status_code ≠ 200 ∨ r.audioContent = none)) :
    (generate_wav o sr).signal ≠ Signal.returned true ∧
      mainExitCode o sr = 1 ∧ (generate_wav o sr).fileTrace = none := by
  rcases h with rfl | ⟨r, rfl, hr⟩
  · exact ⟨by simp [generate_wav], rfl, rfl⟩
  · obtain ⟨code, ac⟩ := r
    rcases hr with hcode | hac
    · simp only at hcode
      simp [generate_wav, mainExitCode, hcode]
    · simp only at hac
      subst hac
      by_cases hc : code = 200
      · subst hc
        exact ⟨by simp [generate_wav], rfl, rfl⟩
      · simp [generate_wav, mainExitCode, hc]

/-- C8 (witness): the transport-failure case at `sample_rate = 44100`. -/
theorem c8_failure_cases_witness :
    (generate_wav TransportOutcome.transportFailed 44100).signal ≠
        Signal.returned true ∧
      mainExitCode TransportOutcome.transportFailed 44100 = 1 ∧
      (generate_wav TransportOutcome.transportFailed 44100).fileTrace = none :=
  c8_failure_cases TransportOutcome.transportFailed 44100 (Or.inl rfl)

end Naphome
